import Mathlib

/-!
Verification of the maternal-health dashboard (`codebase/dashboard_graphs.py`)
against its specification.

Shallow embedding notes:
* A pandas `DataFrame` at the normalization layer is modelled as a list of
  column headers plus a list of rows of cells (`DataFrame`); cells are opaque
  (a type parameter), since `_clean_column_names` never inspects them.
* Python's `str.strip()` is modelled by `pyStrip`, which removes leading and
  trailing whitespace characters.
* After normalization, the table consumed by the chart builders has a fixed
  schema, modelled by `Record` (column `State/UT` ↦ `region`,
  `Need Assessed` ↦ `needAssessed`, `Achievement` ↦ `achievement`,
  `% Achievement` ↦ `percentAchievement`); numeric cells are modelled as
  exact rationals.
* Streamlit / Plotly rendering calls (`st.subheader`, `st.plotly_chart`) are
  modelled as an emitted list of `RenderCall` values; an empty list means the
  rendering surface was never invoked.
* `requests.get` plus `response.raise_for_status()` is modelled by an
  `Except`-valued response: a transport failure carries a message, and
  `raise_for_status` raises exactly on 4xx/5xx status codes, as the source's
  own comment states.  `pd.read_csv` is an external collaborator, passed in
  as a fallible parsing function.
-/

namespace Dashboard

/-- Python `str.strip()`: drop whitespace from both ends of the string. -/
def pyStrip (s : String) : String :=
  String.mk (((s.data.dropWhile Char.isWhitespace).reverse.dropWhile
      Char.isWhitespace).reverse)

/-- The long-form header `Need Assessed (2019-20) - (A)` (rename key A). -/
def longHeaderA : String := "Need Assessed (2019-20) - (A)"

/-- The long-form header for column B. -/
def longHeaderB : String :=
  "Achievement during April to June - Total Institutional Deliveries - (2019-20) - (B)"

/-- The long-form header for column E. -/
def longHeaderE : String := "% Achvt of need assessed (2019-20) - (E=(B/A)*100)"

/-- One entry of the `df.rename(columns=...)` mapping: a header equal to one
of the three known long forms is replaced by its canonical short name, any
other header is returned unchanged. -/
def renameColumn (c : String) : String :=
  if c = longHeaderA then "Need Assessed"
  else if c = longHeaderB then "Achievement"
  else if c = longHeaderE then "% Achievement"
  else c

/-- A pandas data frame at the normalization layer: named columns over rows
of otherwise-opaque cells. -/
structure DataFrame (α : Type) where
  columns : List String
  rows : List (List α)
deriving DecidableEq

/-- The header pipeline of `_clean_column_names`: strip every header, then
apply the rename mapping. -/
def cleanColumns (cols : List String) : List String :=
  (cols.map pyStrip).map renameColumn

/-- `_clean_column_names(df)`: strips all column headers, renames the three
known long forms, and leaves the row data untouched. -/
def clean_column_names (df : DataFrame α) : DataFrame α :=
  { columns := cleanColumns df.columns, rows := df.rows }

/-- One row of the normalized maternal-health table, with the four columns
the charts consume.  `region` is the `State/UT` column. -/
structure Record where
  region : String
  needAssessed : ℚ
  achievement : ℚ
  percentAchievement : ℚ
deriving DecidableEq

/-- `drop_all_india(df)`: `df[df["State/UT"] != "All India"]` — keep exactly
the rows whose region differs from the aggregate pseudo-region. -/
def drop_all_india (df : List Record) : List Record :=
  df.filter (fun r => r.region != "All India")

/-- One point of the bubble-chart spec, as handed to
`px.scatter(df, x=..., y=..., size=..., color=..., hover_name=...)`. -/
structure BubblePoint where
  x : ℚ
  y : ℚ
  size : ℚ
  color : String
  hoverName : String
deriving DecidableEq

/-- One slice of the pie-chart spec, as handed to
`px.pie(df, names=..., values=...)`. -/
structure PieSlice where
  label : String
  value : ℚ
deriving DecidableEq

/-- The bubble-chart spec built from a (filtered) table: x = `Need Assessed`,
y = `Achievement`, size = `% Achievement`, color and hover label =
`State/UT`. -/
def bubbleSpecOf (df : List Record) : List BubblePoint :=
  df.map (fun r =>
    { x := r.needAssessed
      y := r.achievement
      size := r.percentAchievement
      color := r.region
      hoverName := r.region })

/-- The pie-chart spec built from a (filtered) table: slice label =
`State/UT`, slice value = `Achievement`. -/
def pieSpecOf (df : List Record) : List PieSlice :=
  df.map (fun r => { label := r.region, value := r.achievement })

/-- A call to the external rendering surface (Streamlit / Plotly). -/
inductive RenderCall where
  | subheader (text : String)
  | plotlyBubble (title : String) (points : List BubblePoint)
  | plotlyPie (title : String) (slices : List PieSlice)
deriving DecidableEq

/-- The dashboard object: the endpoint it was built from and the fetched
table, absent when the fetch failed. -/
structure MaternalHealthDashboard where
  api_endpoint : String
  maternal_health_data : Option (List Record)

/-- `create_bubble_chart`: when the table is absent, return immediately;
otherwise emit the subheader and hand `px.scatter` the spec built over the
aggregate-filtered rows. -/
def create_bubble_chart (d : MaternalHealthDashboard) : List RenderCall :=
  match d.maternal_health_data with
  | none => []
  | some df =>
      [RenderCall.subheader "Bubble Chart: Need Assessed vs Achievement",
       RenderCall.plotlyBubble "Bubble Chart: Need Assessed vs Achievement"
         (bubbleSpecOf (drop_all_india df))]

/-- `create_pie_chart`: when the table is absent, return immediately;
otherwise emit the subheader and hand `px.pie` the spec built over the
aggregate-filtered rows. -/
def create_pie_chart (d : MaternalHealthDashboard) : List RenderCall :=
  match d.maternal_health_data with
  | none => []
  | some df =>
      [RenderCall.subheader "Proportion of Institutional Deliveries by State/UT",
       RenderCall.plotlyPie "Proportion of Institutional Deliveries by State/UT"
         (pieSpecOf (drop_all_india df))]

/-- An HTTP response that reached the client: status code and body text. -/
structure HttpResponse where
  status : Nat
  body : String
deriving DecidableEq

/-- `response.raise_for_status()` raises an `HTTPError` exactly for bad
responses, i.e. 4xx or 5xx status codes (as the source's comment on the call
states). -/
def raisesForStatus (status : Nat) : Bool :=
  400 ≤ status && status < 600

/-- The outcome of `fetch_data_from_api`: the returned table (absent on
failure) and the error messages shown through `st.error`. -/
structure FetchResult where
  table : Option (DataFrame String)
  errors : List String
deriving DecidableEq

/-- `fetch_data_from_api`: a transport failure (`RequestException` from
`requests.get`) or an `HTTPError` from `raise_for_status` is caught and
reported; a failure of the CSV parser (`pd.read_csv`, passed in as the
external collaborator `parseCsv`) is caught by the generic handler and
reported; otherwise the parsed table is normalized and returned. -/
def fetch_data_from_api (resp : Except String HttpResponse)
    (parseCsv : String → Except String (DataFrame String)) : FetchResult :=
  match resp with
  | Except.error e =>
      { table := none, errors := ["Error during API request: " ++ e] }
  | Except.ok r =>
      if raisesForStatus r.status then
        { table := none
          errors := ["Error during API request: HTTPError for status " ++
            toString r.status] }
      else
        match parseCsv r.body with
        | Except.error e =>
            { table := none
              errors := ["An error occurred while processing the data: " ++ e] }
        | Except.ok data =>
            { table := some (clean_column_names data), errors := [] }

end Dashboard

namespace Dashboard

/-! ### Helper lemmas shared by several claims -/

lemma renameColumn_eqA : renameColumn longHeaderA = "Need Assessed" := by
  decide

lemma renameColumn_eqB : renameColumn longHeaderB = "Achievement" := by
  decide

lemma renameColumn_eqE : renameColumn longHeaderE = "% Achievement" := by
  decide

lemma renameColumn_other (c : String) (h1 : c ≠ longHeaderA)
    (h2 : c ≠ longHeaderB) (h3 : c ≠ longHeaderE) : renameColumn c = c := by
  simp [renameColumn, h1, h2, h3]

lemma cleanColumns_eq_map (cols : List String) :
    cleanColumns cols = cols.map (fun c => renameColumn (pyStrip c)) := by
  simp [cleanColumns, List.map_map, Function.comp]

lemma mem_drop_all_india (df : List Record) (r : Record) :
    r ∈ drop_all_india df ↔ r ∈ df ∧ r.region ≠ "All India" := by
  simp [drop_all_india, List.mem_filter]

/-! ### The claims -/

/-- C1: the column normalizer strips every header and maps each of the three
known long-form headers to its canonical short name, while every other
header passes through stripped but otherwise unchanged. -/
theorem c1_column_normalizer :
    (∀ (cols : List String),
        cleanColumns cols = cols.map (fun c => renameColumn (pyStrip c))) ∧
    renameColumn longHeaderA = "Need Assessed" ∧
    renameColumn longHeaderB = "Achievement" ∧
    renameColumn longHeaderE = "% Achievement" ∧
    (∀ c : String, c ≠ longHeaderA → c ≠ longHeaderB → c ≠ longHeaderE →
        renameColumn c = c) :=
  ⟨cleanColumns_eq_map, renameColumn_eqA, renameColumn_eqB, renameColumn_eqE,
   renameColumn_other⟩

/-- Witness for C1 at the concrete unrecognized header `State/UT`. -/
theorem c1_column_normalizer_witness :
    renameColumn "State/UT" = "State/UT" :=
  c1_column_normalizer.2.2.2.2 "State/UT" (by decide) (by decide) (by decide)

/-- C2: for a present table, both chart views are built over
`drop_all_india`, and `drop_all_india` excludes exactly the rows whose
region is `All India` and no other: membership and multiplicity of every
other row are preserved. -/
theorem c2_exclude_all_india (ep : String) (df : List Record) (r : Record) :
    create_bubble_chart ⟨ep, some df⟩ =
      [RenderCall.subheader "Bubble Chart: Need Assessed vs Achievement",
       RenderCall.plotlyBubble "Bubble Chart: Need Assessed vs Achievement"
         (bubbleSpecOf (drop_all_india df))] ∧
    create_pie_chart ⟨ep, some df⟩ =
      [RenderCall.subheader "Proportion of Institutional Deliveries by State/UT",
       RenderCall.plotlyPie "Proportion of Institutional Deliveries by State/UT"
         (pieSpecOf (drop_all_india df))] ∧
    (r ∈ drop_all_india df ↔ r ∈ df ∧ r.region ≠ "All India") ∧
    List.count r (drop_all_india df) =
      (if r.region = "All India" then 0 else List.count r df) := by
  refine ⟨rfl, rfl, mem_drop_all_india df r, ?_⟩
  by_cases h : r.region = "All India"
  · simp only [h, if_pos rfl]
    exact List.count_eq_zero.mpr (fun hmem => by
      simp [mem_drop_all_india] at hmem
      exact hmem.2 h)
  · rw [if_neg h]
    exact List.count_filter (by simp [h])

/-- C3: the bubble chart maps each retained row to a point with
x = `Need Assessed`, y = `Achievement`, size = `% Achievement`, color and
hover label = `State/UT`; on the concrete two-row table of the spec it
yields exactly one point. -/
theorem c3_bubble_chart_fields (ep : String) (df : List Record) :
    create_bubble_chart ⟨ep, some df⟩ =
      [RenderCall.subheader "Bubble Chart: Need Assessed vs Achievement",
       RenderCall.plotlyBubble "Bubble Chart: Need Assessed vs Achievement"
         ((df.filter (fun r => r.region != "All India")).map (fun r =>
            ⟨r.needAssessed, r.achievement, r.percentAchievement,
             r.region, r.region⟩))] ∧
    create_bubble_chart ⟨ep, some
        [⟨"StateA", 100, 50, 50⟩, ⟨"All India", 1000, 500, 50⟩]⟩ =
      [RenderCall.subheader "Bubble Chart: Need Assessed vs Achievement",
       RenderCall.plotlyBubble "Bubble Chart: Need Assessed vs Achievement"
         [⟨100, 50, 50, "StateA", "StateA"⟩]] := by
  exact ⟨rfl, rfl⟩

/-- C4: the pie chart maps each retained row to a slice labelled by
`State/UT` with value `Achievement`, and the slice values sum to the sum of
`Achievement` over all non-aggregate rows. -/
theorem c4_pie_chart_sum (ep : String) (df : List Record) :
    create_pie_chart ⟨ep, some df⟩ =
      [RenderCall.subheader "Proportion of Institutional Deliveries by State/UT",
       RenderCall.plotlyPie "Proportion of Institutional Deliveries by State/UT"
         ((df.filter (fun r => r.region != "All India")).map
            (fun r => ⟨r.region, r.achievement⟩))] ∧
    ((pieSpecOf (drop_all_india df)).map PieSlice.value).sum =
      ((df.filter (fun r => r.region != "All India")).map
        Record.achievement).sum := by
  refine ⟨rfl, ?_⟩
  simp only [pieSpecOf, drop_all_india, List.map_map]
  rfl

/-- C5 counterexample: a GET answered with status 301 — a non-2xx status —
and a body the CSV parser accepts is NOT turned into an absent table plus an
error message: `raise_for_status` raises only for 4xx/5xx, so the fetcher
parses the body and returns a table with no error reported. -/
theorem c5_counterexample :
    ¬ (200 ≤ 301 ∧ 301 < 300) ∧
    (fetch_data_from_api (Except.ok ⟨301, "State/UT\nAll India"⟩)
        (fun _ => Except.ok ⟨["State/UT"], [["All India"]]⟩)).table ≠ none ∧
    (fetch_data_from_api (Except.ok ⟨301, "State/UT\nAll India"⟩)
        (fun _ => Except.ok ⟨["State/UT"], [["All India"]]⟩)).errors = [] := by
  refine ⟨by decide, ?_, rfl⟩
  intro h
  simp [fetch_data_from_api, raisesForStatus] at h

/-- C5 (amended): for every GET that ends in a transport failure or in a
response with a 4xx or 5xx status, the fetcher yields no table and reports
the failure via a visible error message. -/
theorem c5_fetch_failure (resp : Except String HttpResponse)
    (parseCsv : String → Except String (DataFrame String))
    (h : (∃ e, resp = Except.error e) ∨
      (∃ r, resp = Except.ok r ∧ 400 ≤ r.status ∧ r.status < 600)) :
    (fetch_data_from_api resp parseCsv).table = none ∧
    (fetch_data_from_api resp parseCsv).errors ≠ [] := by
  rcases h with ⟨e, rfl⟩ | ⟨r, rfl, h1, h2⟩
  · exact ⟨rfl, by simp [fetch_data_from_api]⟩
  · have hr : raisesForStatus r.status = true := by
      simp only [raisesForStatus, Bool.and_eq_true, decide_eq_true_eq]
      omega
    refine ⟨?_, ?_⟩ <;> simp [fetch_data_from_api, hr]

/-- Witness for C5 at a concrete 404 response. -/
theorem c5_fetch_failure_witness :
    (fetch_data_from_api (Except.ok ⟨404, "Not Found"⟩)
        (fun _ => Except.error "no CSV")).table = none ∧
    (fetch_data_from_api (Except.ok ⟨404, "Not Found"⟩)
        (fun _ => Except.error "no CSV")).errors ≠ [] :=
  c5_fetch_failure (Except.ok ⟨404, "Not Found"⟩) (fun _ => Except.error "no CSV")
    (Or.inr ⟨⟨404, "Not Found"⟩, rfl, by decide, by decide⟩)

/-- C6: whenever the CSV parser rejects the body of a response that passed
the status check, the fetcher yields no table and reports the parse failure
through the generic handler's visible message; and in general every run of
the fetcher that yields no table reports at least one visible message, so no
response content escapes as an unhandled fault. -/
theorem c6_parse_failure :
    (∀ (r : HttpResponse)
        (parseCsv : String → Except String (DataFrame String)) (e : String),
        raisesForStatus r.status = false →
        parseCsv r.body = Except.error e →
        (fetch_data_from_api (Except.ok r) parseCsv).table = none ∧
        (fetch_data_from_api (Except.ok r) parseCsv).errors =
          ["An error occurred while processing the data: " ++ e]) ∧
    (∀ (resp : Except String HttpResponse)
        (parseCsv : String → Except String (DataFrame String)),
        (fetch_data_from_api resp parseCsv).table = none →
        (fetch_data_from_api resp parseCsv).errors ≠ []) := by
  constructor
  · intro r parseCsv e hs hp
    simp [fetch_data_from_api, hs, hp]
  · intro resp parseCsv htab
    match resp with
    | Except.error e => simp [fetch_data_from_api]
    | Except.ok r =>
      by_cases hs : raisesForStatus r.status
      · simp [fetch_data_from_api, hs]
      · match hp : parseCsv r.body with
        | Except.error e => simp [fetch_data_from_api, hs, hp]
        | Except.ok data =>
          exact absurd htab (by simp [fetch_data_from_api, hs, hp])

/-- Witness for C6 at a concrete response whose body the parser rejects. -/
theorem c6_parse_failure_witness :
    (fetch_data_from_api (Except.ok ⟨200, "\x00garbage"⟩)
        (fun _ => Except.error "ParserError")).table = none ∧
    (fetch_data_from_api (Except.ok ⟨200, "\x00garbage"⟩)
        (fun _ => Except.error "ParserError")).errors =
      ["An error occurred while processing the data: ParserError"] :=
  c6_parse_failure.1 ⟨200, "\x00garbage"⟩ (fun _ => Except.error "ParserError")
    "ParserError" rfl rfl

/-- C7: when the fetched table is absent, both chart operations return
immediately without invoking the rendering surface at all. -/
theorem c7_absent_table_noop (d : MaternalHealthDashboard)
    (h : d.maternal_health_data = none) :
    create_bubble_chart d = [] ∧ create_pie_chart d = [] := by
  obtain ⟨ep, data⟩ := d
  cases h
  exact ⟨rfl, rfl⟩

/-- Witness for C7 at a dashboard whose fetch failed. -/
theorem c7_absent_table_noop_witness :
    create_bubble_chart ⟨"https://api.data.gov.in/resource/x", none⟩ = [] ∧
    create_pie_chart ⟨"https://api.data.gov.in/resource/x", none⟩ = [] :=
  c7_absent_table_noop ⟨"https://api.data.gov.in/resource/x", none⟩ rfl

/-- C8: the column normalizer is a pure header operation — the row data of
the output table is exactly the row data of the input table. -/
theorem c8_rows_unchanged (α : Type) (df : DataFrame α) :
    (clean_column_names df).rows = df.rows :=
  rfl

/-- C9: chart building only filters — every bubble point and every pie slice
carries the field values of some non-aggregate row of the table verbatim;
and on a row whose provided `% Achievement` (75) disagrees with
100×Achievement/NeedAssessed (= 50), the bubble size stays the provided 75,
never the recomputed value. -/
theorem c9_values_as_provided (df : List Record) :
    (∀ p ∈ bubbleSpecOf (drop_all_india df), ∃ r,
        r ∈ df ∧ r.region ≠ "All India" ∧
        p.x = r.needAssessed ∧ p.y = r.achievement ∧
        p.size = r.percentAchievement ∧
        p.color = r.region ∧ p.hoverName = r.region) ∧
    (∀ s ∈ pieSpecOf (drop_all_india df), ∃ r,
        r ∈ df ∧ r.region ≠ "All India" ∧
        s.label = r.region ∧ s.value = r.achievement) ∧
    bubbleSpecOf (drop_all_india [⟨"StateA", 100, 50, 75⟩]) =
      [⟨100, 50, 75, "StateA", "StateA"⟩] := by
  refine ⟨?_, ?_, rfl⟩
  · intro p hp
    simp only [bubbleSpecOf, drop_all_india, List.mem_map,
      List.mem_filter, bne_iff_ne, ne_eq] at hp
    obtain ⟨r, ⟨hr, hne⟩, rfl⟩ := hp
    exact ⟨r, hr, hne, rfl, rfl, rfl, rfl, rfl⟩
  · intro s hs
    simp only [pieSpecOf, drop_all_india, List.mem_map,
      List.mem_filter, bne_iff_ne, ne_eq] at hs
    obtain ⟨r, ⟨hr, hne⟩, rfl⟩ := hs
    exact ⟨r, hr, hne, rfl, rfl⟩

/-- Witness for C9: the single point of a one-row chart carries that row's
values. -/
theorem c9_values_as_provided_witness :
    ∃ r, r ∈ [(⟨"StateA", 100, 50, 75⟩ : Record)] ∧
      r.region ≠ "All India" ∧
      (100 : ℚ) = r.needAssessed ∧ (50 : ℚ) = r.achievement ∧
      (75 : ℚ) = r.percentAchievement ∧
      "StateA" = r.region ∧ "StateA" = r.region :=
  (c9_values_as_provided [⟨"StateA", 100, 50, 75⟩]).1
    ⟨100, 50, 75, "StateA", "StateA"⟩ (by decide)

/-- C10: the three rename keys are already-stripped strings, so whenever
every header of a table strips to one of the known long forms — any amount
of leading or trailing whitespace padding — every output header of the
normalizer is one of the three canonical short names. -/
theorem c10_padded_long_headers :
    (pyStrip longHeaderA = longHeaderA ∧ pyStrip longHeaderB = longHeaderB ∧
      pyStrip longHeaderE = longHeaderE) ∧
    ∀ (cols : List String),
      (∀ c ∈ cols, pyStrip c = longHeaderA ∨ pyStrip c = longHeaderB ∨
        pyStrip c = longHeaderE) →
      ∀ h ∈ cleanColumns cols,
        h = "Need Assessed" ∨ h = "Achievement" ∨ h = "% Achievement" := by
  refine ⟨⟨by decide, by decide, by decide⟩, ?_⟩
  intro cols hc h hmem
  rw [cleanColumns_eq_map] at hmem
  obtain ⟨c, hcmem, rfl⟩ := List.mem_map.mp hmem
  rcases hc c hcmem with hA | hB | hE
  · exact Or.inl (by rw [hA, renameColumn_eqA])
  · exact Or.inr (Or.inl (by rw [hB, renameColumn_eqB]))
  · exact Or.inr (Or.inr (by rw [hE, renameColumn_eqE]))

/-- Witness for C10 at a concrete whitespace-padded long header. -/
theorem c10_padded_long_headers_witness :
    "Need Assessed" = "Need Assessed" ∨ "Need Assessed" = "Achievement" ∨
      "Need Assessed" = "% Achievement" :=
  c10_padded_long_headers.2 ["  Need Assessed (2019-20) - (A) "]
    (by decide) "Need Assessed" (by decide)

end Dashboard
